import Mathlib

/-!
Shallow embedding of the sub-block value reconciliation hook
(`use-sub-block-value.ts`) and the toolbar block filter of the
workflow-builder repository, with theorems settling the behavioural
claims about them.

JavaScript runtime values that flow through the stores are embedded as
the inductive type `Value`; machine state (the SubBlock store, the
Workflow store, and the hook's two refs) is embedded as explicit
records, and each code path of the hook (the setter, the mount
auto-fill effect, the model-change effect, the ref synchronisation
effect) becomes a state-transition function translated line by line
from the source.  Deep equality (lodash `isEqual`, an external library)
is modelled as structural equality of the `Value` embedding, and strict
equality (`===`) between a string and a value likewise; both coincide
with the JavaScript behaviour on the primitive values these code paths
compare.
-/

/-- Embedding of the JavaScript values stored in sub-block fields:
`null`, `undefined`, booleans, numbers, strings, plain objects and
arrays. -/
inductive Value where
  | vnull
  | vundef
  | vbool (b : Bool)
  | vnum (n : Int)
  | vstr (s : String)
  | vobj (fields : List (String × Value))
  | varr (items : List Value)

namespace Value

/-- JavaScript truthiness of an embedded value. -/
def truthy : Value → Bool
  | .vnull => false
  | .vundef => false
  | .vbool b => b
  | .vnum n => n != 0
  | .vstr s => s != ""
  | .vobj _ => true
  | .varr _ => true

end Value

mutual

/-- Structural equality of embedded values.  This is the model both of
lodash `isEqual` (deep equality) and of JavaScript `===` at the places
the hook applies them; on the primitive values those comparisons
actually receive (strings, `null`), all three coincide. -/
def Value.beq : Value → Value → Bool
  | .vnull, .vnull => true
  | .vundef, .vundef => true
  | .vbool a, .vbool b => a == b
  | .vnum a, .vnum b => a == b
  | .vstr a, .vstr b => a == b
  | .vobj fs, .vobj gs => beqFields fs gs
  | .varr xs, .varr ys => beqItems xs ys
  | _, _ => false

/-- Pointwise equality of object field lists. -/
def beqFields : List (String × Value) → List (String × Value) → Bool
  | [], [] => true
  | (k1, v1) :: rest1, (k2, v2) :: rest2 =>
      k1 == k2 && Value.beq v1 v2 && beqFields rest1 rest2
  | _, _ => false

/-- Pointwise equality of array element lists. -/
def beqItems : List Value → List Value → Bool
  | [], [] => true
  | v1 :: rest1, v2 :: rest2 => Value.beq v1 v2 && beqItems rest1 rest2
  | _, _ => false

end

mutual

/-- JavaScript `String(v)` conversion of an embedded value. -/
def Value.toJSString : Value → String
  | .vnull => "null"
  | .vundef => "undefined"
  | .vbool true => "true"
  | .vbool false => "false"
  | .vnum n => toString n
  | .vstr s => s
  | .vobj _ => "[object Object]"
  | .varr items => String.intercalate "," (arrElemStrings items)

/-- Elements of an array under `String(...)`: `null` and `undefined`
elements print as the empty string. -/
def arrElemStrings : List Value → List String
  | [] => []
  | .vnull :: rest => "" :: arrElemStrings rest
  | .vundef :: rest => "" :: arrElemStrings rest
  | v :: rest => Value.toJSString v :: arrElemStrings rest

end

mutual

/-- Semantics of `JSON.parse(JSON.stringify(v))` on an object or array
value: object fields whose value is `undefined` are dropped, `undefined`
array elements become `null`. -/
def deepClone : Value → Value
  | .vnull => .vnull
  | .vundef => .vundef
  | .vbool b => .vbool b
  | .vnum n => .vnum n
  | .vstr s => .vstr s
  | .vobj fields => .vobj (deepCloneFields fields)
  | .varr items => .varr (deepCloneItems items)

def deepCloneFields : List (String × Value) → List (String × Value)
  | [] => []
  | (_, .vundef) :: rest => deepCloneFields rest
  | (k, v) :: rest => (k, deepClone v) :: deepCloneFields rest

def deepCloneItems : List Value → List Value
  | [] => []
  | .vundef :: rest => .vnull :: deepCloneItems rest
  | v :: rest => deepClone v :: deepCloneItems rest

end

mutual

/-- A value contains no `undefined` anywhere (so JSON cloning is the
identity on it). -/
def undefFree : Value → Bool
  | .vnull => true
  | .vundef => false
  | .vbool _ => true
  | .vnum _ => true
  | .vstr _ => true
  | .vobj fields => undefFreeFields fields
  | .varr items => undefFreeItems items

def undefFreeFields : List (String × Value) → Bool
  | [] => true
  | (_, v) :: rest => undefFree v && undefFreeFields rest

def undefFreeItems : List Value → Bool
  | [] => true
  | v :: rest => undefFree v && undefFreeItems rest

end

/-- Model of JavaScript `toLowerCase` as a character-wise map (the
identifiers and queries compared here are ASCII). -/
def strToLower (s : String) : String :=
  String.mk (s.data.map Char.toLower)

/-- Model of JavaScript `String.prototype.trim`: strips leading and
trailing whitespace. -/
def jsTrim (s : String) : String :=
  String.mk (((s.data.dropWhile Char.isWhitespace).reverse.dropWhile
    Char.isWhitespace).reverse)

/-- Model of JavaScript `String.prototype.startsWith`. -/
def strHasPre (s p : String) : Bool :=
  p.data.isPrefixOf s.data

/-- Model of JavaScript `String.prototype.endsWith`. -/
def strHasSuf (s p : String) : Bool :=
  p.data.reverse.isPrefixOf s.data.reverse

/-- Association-list update: replaces the binding of an existing key in
place, appends a new binding otherwise. -/
def setAssoc {α β : Type} [DecidableEq α] (k : α) (v : β) :
    List (α × β) → List (α × β)
  | [] => [(k, v)]
  | (k1, v1) :: rest =>
      if k1 = k then (k, v) :: rest else (k1, v1) :: setAssoc k v rest

/-- Modelled from the spec: the SubBlock store (an external collaborator,
not part of the excerpt).  It holds the current value per
`(blockId, subBlockId)`, provider- or block-type-scoped API-key params
per `(scope, paramName)`, and the set of `(instanceId, paramName)` pairs
the user has explicitly cleared. -/
structure SubBlockStore where
  values : List ((String × String) × Value)
  toolParams : List ((String × String) × String)
  clearedParams : List (String × String)

/-- Modelled from the spec: `getValue(blockId, subBlockId)`; sub-block
values are "created on first access (default null)", so an absent entry
reads as `null`. -/
def SubBlockStore.getValue (s : SubBlockStore) (blockId subBlockId : String) : Value :=
  match s.values.lookup (blockId, subBlockId) with
  | some v => v
  | none => .vnull

/-- Modelled from the spec: `setValue(blockId, subBlockId, value)`. -/
def SubBlockStore.setValue (s : SubBlockStore) (blockId subBlockId : String)
    (v : Value) : SubBlockStore :=
  { s with values := setAssoc (blockId, subBlockId) v s.values }

/-- Modelled from the spec: `isParamCleared(instanceId, paramName)`. -/
def SubBlockStore.isParamCleared (s : SubBlockStore) (instanceId paramName : String) : Bool :=
  s.clearedParams.contains (instanceId, paramName)

/-- Modelled from the spec: `markParamAsCleared(instanceId, paramName)`. -/
def SubBlockStore.markParamAsCleared (s : SubBlockStore) (instanceId paramName : String) :
    SubBlockStore :=
  if s.isParamCleared instanceId paramName then s
  else { s with clearedParams := (instanceId, paramName) :: s.clearedParams }

/-- Modelled from the spec: `unmarkParamAsCleared(instanceId, paramName)`. -/
def SubBlockStore.unmarkParamAsCleared (s : SubBlockStore) (instanceId paramName : String) :
    SubBlockStore :=
  { s with clearedParams := s.clearedParams.filter (fun p => p != (instanceId, paramName)) }

/-- Modelled from the spec: `setToolParam(scope, paramName, value)` stores
an API-key value under a provider or block-type scope. -/
def SubBlockStore.setToolParam (s : SubBlockStore) (scope paramName value : String) :
    SubBlockStore :=
  { s with toolParams := setAssoc (scope, paramName) value s.toolParams }

/-- Modelled from the spec: `resolveToolParamValue(scope, paramName,
instanceId)` returns the value stored under the scope, except that a
cleared instance "must not be auto-filled until explicitly unmarked", so
it resolves to `null` for cleared instances and for absent entries. -/
def SubBlockStore.resolveToolParamValue (s : SubBlockStore)
    (scope paramName instanceId : String) : Option String :=
  if s.isParamCleared instanceId paramName then none
  else s.toolParams.lookup (scope, paramName)

/-- A sub-block record of the Workflow store (`{ value }`). -/
structure SubBlockState where
  value : Value

/-- A block of the Workflow store: `{ type, subBlocks }`. -/
structure Block where
  type : String
  subBlocks : List (String × SubBlockState)

/-- Modelled from the spec: the Workflow store (an external
collaborator); `updateCount` counts `triggerUpdate()` notifications so
that "no workflow update is triggered" is expressible as state
equality. -/
structure WorkflowStore where
  blocks : List (String × Block)
  updateCount : Nat

/-- Modelled from the spec: `getState().triggerUpdate()`. -/
def WorkflowStore.triggerUpdate (ws : WorkflowStore) : WorkflowStore :=
  { ws with updateCount := ws.updateCount + 1 }

/-- `state.blocks?.[blockId]?.type` (hook lines 149-151): optional
chaining yields `undefined` (here `none`) for an absent block. -/
def WorkflowStore.blockTypeOf (ws : WorkflowStore) (blockId : String) : Option String :=
  (ws.blocks.lookup blockId).map (fun blk => blk.type)

/-- `state.blocks?.[blockId]?.subBlocks?.[subBlockId]?.value ?? null`
(hook lines 153-158): a missing block or sub-block, or an
`undefined`/`null` stored value, reads as `null`. -/
def WorkflowStore.initialValueOf (ws : WorkflowStore) (blockId subBlockId : String) : Value :=
  match ws.blocks.lookup blockId with
  | none => .vnull
  | some blk =>
      match blk.subBlocks.lookup subBlockId with
      | none => .vnull
      | some sb =>
          match sb.value with
          | .vundef => .vnull
          | v => v

/-- Modelled from the spec: `getProviderFromModel`, "a pure function
mapping a model identifier string to a provider identifier string or
null"; the function itself is external to the excerpt, so the embedding
abstracts over it. -/
abbrev ProviderResolver := String → Option String

/-- The hook's two refs: the cached current value (`valueRef`, initial
`null`) and the previously observed model value (`prevModelRef`, initial
`null`). -/
structure HookState where
  valueRef : Value
  prevModelRef : Value

/-- A needle occurs as a contiguous sublist of the haystack. -/
def containsSubList (needle : List Char) : List Char → Bool
  | [] => needle.isEmpty
  | c :: rest => needle.isPrefixOf (c :: rest) || containsSubList needle rest

/-- Substring containment, the model of JavaScript `String.includes`. -/
def strIncludes (s q : String) : Bool :=
  containsSubList q.toList s.toList

/-- `subBlockId === 'apiKey' || (subBlockId?.toLowerCase().includes('apikey') ?? false)`
(hook lines 172-173). -/
def isApiKeyField (subBlockId : String) : Bool :=
  subBlockId == "apiKey" || strIncludes (strToLower subBlockId) "apikey"

/-- `blockType === 'agent' || blockType === 'router' || blockType === 'evaluator'`
(hook line 184). -/
def isProviderBasedOf (blockType : Option String) : Bool :=
  blockType == some "agent" || blockType == some "router" ||
    blockType == some "evaluator"

/-- Truthiness of the `blockType : string | undefined` values the hook
branches on (`undefined` and the empty string are falsy). -/
def blockTypeTruthy : Option String → Bool
  | none => false
  | some t => t != ""

/-- Hook lines 179-187: the `model` sub-block value is read from the
SubBlock store when `blockId` is truthy, and `modelValue` is that value
for provider-based blocks and `null` otherwise. -/
def computeModelValue (blockId : String) (blockType : Option String)
    (s : SubBlockStore) : Value :=
  let modelSubBlockValue := if blockId != "" then s.getValue blockId "model" else .vnull
  if isProviderBasedOf blockType then modelSubBlockValue else .vnull

/-- `typeof storeValue === 'string' && storeValue.startsWith('{{') && storeValue.endsWith('}}')`
(hook lines 68-72). -/
def isEnvVarRef : Value → Bool
  | .vstr s => strHasPre s "\x7b\x7b" && strHasSuf s "\x7d\x7d"
  | _ => false

/-- `newValue === null || newValue === '' || String(newValue).trim() === ''`
(hook line 107). -/
def Value.isBlankInput (v : Value) : Bool :=
  Value.beq v .vnull || Value.beq v (.vstr "") || jsTrim v.toJSString == ""

set_option linter.unusedVariables false in
/-- Translation of `handleProviderBasedApiKey` (hook lines 12-42).  The
`storeValue` parameter is carried but unused, exactly as in the
source. -/
def handleProviderBasedApiKey (gpm : ProviderResolver) (blockId subBlockId : String)
    (modelValue : Value) (storeValue : Value) (s : SubBlockStore) : SubBlockStore :=
  if !modelValue.truthy then s
  else
    match gpm modelValue.toJSString with
    | none => s
    | some provider =>
        if provider == "" || provider == "ollama" then s
        else
          match s.resolveToolParamValue provider "apiKey" blockId with
          | some savedValue =>
              if savedValue != "" then s.setValue blockId subBlockId (.vstr savedValue)
              else s.setValue blockId subBlockId (.vstr "")
          | none => s.setValue blockId subBlockId (.vstr "")

/-- Translation of `handleStandardBlockApiKey` (hook lines 47-85). -/
def handleStandardBlockApiKey (blockId subBlockId : String)
    (blockType : Option String) (storeValue : Value) (s : SubBlockStore) : SubBlockStore :=
  if !(blockTypeTruthy blockType) then s
  else
    let bt := blockType.getD ""
    if !storeValue.truthy then
      match s.resolveToolParamValue bt "apiKey" blockId with
      | some savedValue =>
          if savedValue != "" && !(Value.beq (.vstr savedValue) storeValue) then
            s.setValue blockId subBlockId (.vstr savedValue)
          else s
      | none => s
    else if isEnvVarRef storeValue then
      match s.resolveToolParamValue bt "apiKey" blockId with
      | some currentValue =>
          if !(Value.beq (.vstr currentValue) storeValue) && currentValue != "" then
            s.setValue blockId subBlockId (.vstr currentValue)
          else s
      | none => s
    else s

/-- Translation of `storeApiKeyValue` (hook lines 90-133). -/
def storeApiKeyValue (gpm : ProviderResolver) (blockId : String)
    (blockType : Option String) (modelValue : Value) (newValue : Value)
    (storeValue : Value) (s : SubBlockStore) : SubBlockStore :=
  if !(blockTypeTruthy blockType) then s
  else
    let bt := blockType.getD ""
    if storeValue.truthy && !(Value.beq storeValue (.vstr "")) && newValue.isBlankInput then
      s.markParamAsCleared blockId "apiKey"
    else if !newValue.truthy || jsTrim newValue.toJSString == "" then s
    else
      let s1 :=
        if s.isParamCleared blockId "apiKey" then s.unmarkParamAsCleared blockId "apiKey"
        else s
      if (bt == "agent" || bt == "router" || bt == "evaluator") && modelValue.truthy then
        match gpm modelValue.toJSString with
        | none => s1
        | some provider =>
            if provider != "" && provider != "ollama" then
              s1.setToolParam provider "apiKey" newValue.toJSString
            else s1
      else s1.setToolParam bt "apiKey" newValue.toJSString

/-- `newValue === null ? null : typeof newValue === 'object' ? JSON.parse(JSON.stringify(newValue)) : newValue`
(hook lines 197-202). -/
def valueCopyOf : Value → Value
  | .vnull => .vnull
  | .vobj fs => deepClone (.vobj fs)
  | .varr xs => deepClone (.varr xs)
  | v => v

/-- The identifiers and flag the hook closes over. -/
structure HookCtx where
  blockId : String
  subBlockId : String
  triggerWorkflowUpdate : Bool

/-- Translation of the hook's `setValue` callback (lines 190-219):
guarded by deep inequality against the cached value, it updates the
cache, routes API-key fields through `storeApiKeyValue`, writes the
(deep-cloned) value to the SubBlock store, and optionally triggers a
workflow update.  `blockType`, `storeValue` and `modelValue` are the
render-time snapshots the callback captures, read here from the current
stores. -/
def setValueImpl (gpm : ProviderResolver) (ctx : HookCtx) (hs : HookState)
    (s : SubBlockStore) (ws : WorkflowStore) (newValue : Value) :
    HookState × SubBlockStore × WorkflowStore :=
  let blockType := ws.blockTypeOf ctx.blockId
  let storeValue := s.getValue ctx.blockId ctx.subBlockId
  let modelValue := computeModelValue ctx.blockId blockType s
  if Value.beq hs.valueRef newValue then (hs, s, ws)
  else
    let hs1 : HookState := { hs with valueRef := newValue }
    let valueCopy := valueCopyOf newValue
    let s1 :=
      if isApiKeyField ctx.subBlockId && blockTypeTruthy blockType then
        storeApiKeyValue gpm ctx.blockId blockType modelValue newValue storeValue s
      else s
    let s2 := s1.setValue ctx.blockId ctx.subBlockId valueCopy
    let ws1 := if ctx.triggerWorkflowUpdate then ws.triggerUpdate else ws
    (hs1, s2, ws1)

/-- Translation of the mount auto-fill effect (hook lines 227-241). -/
def mountAutofillEffect (gpm : ProviderResolver) (blockId subBlockId : String)
    (blockType : Option String) (isAutoFillEnvVarsEnabled : Bool)
    (s : SubBlockStore) : SubBlockStore :=
  if !isAutoFillEnvVarsEnabled then s
  else if !(isApiKeyField subBlockId) then s
  else if isProviderBasedOf blockType then
    handleProviderBasedApiKey gpm blockId subBlockId
      (computeModelValue blockId blockType s) (s.getValue blockId subBlockId) s
  else
    handleStandardBlockApiKey blockId subBlockId blockType
      (s.getValue blockId subBlockId) s

/-- Translation of the model-change effect (hook lines 244-276). -/
def modelChangeEffect (gpm : ProviderResolver) (blockId subBlockId : String)
    (blockType : Option String) (isAutoFillEnvVarsEnabled : Bool)
    (hs : HookState) (s : SubBlockStore) : HookState × SubBlockStore :=
  let modelValue := computeModelValue blockId blockType s
  if !(isApiKeyField subBlockId) || !(isProviderBasedOf blockType) then (hs, s)
  else if Value.beq modelValue hs.prevModelRef then (hs, s)
  else
    let hs1 : HookState := { hs with prevModelRef := modelValue }
    if modelValue.truthy then
      match gpm modelValue.toJSString with
      | none => (hs1, s)
      | some provider =>
          if provider == "" || provider == "ollama" then (hs1, s)
          else
            match s.resolveToolParamValue provider "apiKey" blockId with
            | some savedValue =>
                if savedValue != "" && isAutoFillEnvVarsEnabled then
                  (hs1, s.setValue blockId subBlockId (.vstr savedValue))
                else (hs1, s.setValue blockId subBlockId (.vstr ""))
            | none => (hs1, s.setValue blockId subBlockId (.vstr ""))
    else (hs1, s)

/-- Translation of the first-render ref initialisation (hook lines
222-224). -/
def initRefEffect (storeValue initialValue : Value) (hs : HookState) : HookState :=
  { hs with
    valueRef := match storeValue with | .vundef => initialValue | v => v }

/-- Translation of the store-to-cache synchronisation effect (hook lines
280-285): the cache is rewritten only when the store value is not
deep-equal to it. -/
def syncRefEffect (storeValue initialValue : Value) (hs : HookState) : HookState :=
  if Value.beq hs.valueRef storeValue then hs
  else
    { hs with
      valueRef := match storeValue with | .vundef => initialValue | v => v }

/-- The `toolbar` descriptor of a block (`{ title, description }`). -/
structure ToolbarEntry where
  title : String
  description : String
deriving DecidableEq

/-- A toolbar block descriptor as the Toolbar consumes it. -/
structure BlockConfig where
  type : String
  toolbar : ToolbarEntry
  category : String
deriving DecidableEq

/-- Modelled from the spec: `getBlocksByCategory` filters the static
block registry (here a parameter) by category. -/
def getBlocksByCategory (allBlocks : List BlockConfig) (category : String) :
    List BlockConfig :=
  allBlocks.filter (fun b => b.category == category)

/-- Translation of the Toolbar's `blocks` memo (toolbar lines 21-32):
category filtering when the trimmed query is empty, otherwise a
case-insensitive substring search of title and description over all
blocks. -/
def toolbarBlocks (allBlocks : List BlockConfig) (activeTab searchQuery : String) :
    List BlockConfig :=
  if jsTrim searchQuery == "" then getBlocksByCategory allBlocks activeTab
  else
    let query := strToLower searchQuery
    allBlocks.filter fun block =>
      strIncludes (strToLower block.toolbar.title) query ||
        strIncludes (strToLower block.toolbar.description) query

/-- A sample provider resolution: two known models, one of which routes
to the excluded `ollama` provider; every other model is unresolvable. -/
def gpmDemo : ProviderResolver := fun m =>
  if m == "gpt-4o" then some "openai"
  else if m == "llama3" then some "ollama"
  else none

/-- An empty SubBlock store. -/
def emptyStore : SubBlockStore := ⟨[], [], []⟩

/-- An empty Workflow store. -/
def wsEmpty : WorkflowStore := ⟨[], 0⟩

/-- A store whose block `b1` holds a non-empty API key and a model that
resolves to no provider. -/
def storeC1 : SubBlockStore :=
  ⟨[(("b1", "apiKey"), .vstr "oldkey"), (("b1", "model"), .vstr "mystery-model")], [], []⟩

/-- A store whose block `b2` holds a manually entered API key and a model
resolving to `openai`, with no saved key for any provider. -/
def storeC2 : SubBlockStore :=
  ⟨[(("b2", "apiKey"), .vstr "manual-key"), (("b2", "model"), .vstr "gpt-4o")], [], []⟩

/-- A store with a saved `openai` key and block `b1` selecting a model
that resolves to `openai`. -/
def storeW1 : SubBlockStore :=
  ⟨[(("b1", "model"), .vstr "gpt-4o")], [(("openai", "apiKey"), "sk-test")], []⟩

/-- A store with a saved key scoped to the `slack` block type. -/
def storeW2 : SubBlockStore := ⟨[], [(("slack", "apiKey"), "tok")], []⟩

/-- The Snowflake toolbar descriptor from the spec scenario. -/
def snowBlock : BlockConfig :=
  ⟨"snowflake", ⟨"Snowflake Query", "Execute SQL against a Snowflake warehouse"⟩, "tools"⟩

/-- A two-entry block registry spanning two categories. -/
def demoBlocks : List BlockConfig :=
  [snowBlock, ⟨"agent", ⟨"Agent", "LLM agent block"⟩, "basic"⟩]

mutual

/-- Structural value equality is reflexive. -/
theorem Value.beq_refl : ∀ (a : Value), Value.beq a a = true
  | .vnull => rfl
  | .vundef => rfl
  | .vbool b => by simp [Value.beq]
  | .vnum n => by simp [Value.beq]
  | .vstr s => by simp [Value.beq]
  | .vobj fs => by simp [Value.beq, beqFields_refl fs]
  | .varr xs => by simp [Value.beq, beqItems_refl xs]

theorem beqFields_refl : ∀ (fs : List (String × Value)), beqFields fs fs = true
  | [] => rfl
  | (k, v) :: rest => by simp [beqFields, Value.beq_refl v, beqFields_refl rest]

theorem beqItems_refl : ∀ (xs : List Value), beqItems xs xs = true
  | [] => rfl
  | v :: rest => by simp [beqItems, Value.beq_refl v, beqItems_refl rest]

end

mutual

/-- JSON cloning is the identity on values containing no `undefined`. -/
theorem deepClone_eq_self : ∀ (v : Value), undefFree v = true → deepClone v = v
  | .vnull, _ => rfl
  | .vundef, h => by simp [undefFree] at h
  | .vbool _, _ => rfl
  | .vnum _, _ => rfl
  | .vstr _, _ => rfl
  | .vobj fs, h => by
      simp only [deepClone]
      rw [deepCloneFields_eq_self fs (by simpa [undefFree] using h)]
  | .varr xs, h => by
      simp only [deepClone]
      rw [deepCloneItems_eq_self xs (by simpa [undefFree] using h)]

theorem deepCloneFields_eq_self :
    ∀ (fs : List (String × Value)), undefFreeFields fs = true → deepCloneFields fs = fs
  | [], _ => rfl
  | (k, v) :: rest, h => by
      have h1 : undefFree v = true ∧ undefFreeFields rest = true := by
        simpa [undefFreeFields] using h
      cases v with
      | vundef => simp [undefFree] at h1
      | vnull =>
          simp [deepCloneFields, deepClone, deepCloneFields_eq_self rest h1.2]
      | vbool b =>
          simp [deepCloneFields, deepClone, deepCloneFields_eq_self rest h1.2]
      | vnum n =>
          simp [deepCloneFields, deepClone, deepCloneFields_eq_self rest h1.2]
      | vstr s =>
          simp [deepCloneFields, deepClone, deepCloneFields_eq_self rest h1.2]
      | vobj gs =>
          simp [deepCloneFields, deepClone_eq_self (Value.vobj gs) h1.1,
            deepCloneFields_eq_self rest h1.2]
      | varr ys =>
          simp [deepCloneFields, deepClone_eq_self (Value.varr ys) h1.1,
            deepCloneFields_eq_self rest h1.2]

theorem deepCloneItems_eq_self :
    ∀ (xs : List Value), undefFreeItems xs = true → deepCloneItems xs = xs
  | [], _ => rfl
  | v :: rest, h => by
      have h1 : undefFree v = true ∧ undefFreeItems rest = true := by
        simpa [undefFreeItems] using h
      cases v with
      | vundef => simp [undefFree] at h1
      | vnull => simp [deepCloneItems, deepClone, deepCloneItems_eq_self rest h1.2]
      | vbool b => simp [deepCloneItems, deepClone, deepCloneItems_eq_self rest h1.2]
      | vnum n => simp [deepCloneItems, deepClone, deepCloneItems_eq_self rest h1.2]
      | vstr s => simp [deepCloneItems, deepClone, deepCloneItems_eq_self rest h1.2]
      | vobj gs =>
          simp [deepCloneItems, deepClone_eq_self (Value.vobj gs) h1.1,
            deepCloneItems_eq_self rest h1.2]
      | varr ys =>
          simp [deepCloneItems, deepClone_eq_self (Value.varr ys) h1.1,
            deepCloneItems_eq_self rest h1.2]

end


/-- Looking up a key just written by `setAssoc` yields the new value. -/
theorem lookup_setAssoc_self {β : Type} (k : String × String) (v : β)
    (l : List ((String × String) × β)) : List.lookup k (setAssoc k v l) = some v := by
  induction l with
  | nil => simp [setAssoc, List.lookup]
  | cons hd tl ih =>
      obtain ⟨k1, v1⟩ := hd
      by_cases h : k1 = k
      · simp [setAssoc, h, List.lookup]
      · simp only [setAssoc, if_neg h, List.lookup]
        have hbeq : (k == k1) = false := by
          simp [beq_eq_false_iff_ne]
          exact fun he => h he.symm
        simp [hbeq, ih]

/-- Reading a field right after writing it returns the written value. -/
theorem getValue_setValue (s : SubBlockStore) (blockId subBlockId : String) (v : Value) :
    (s.setValue blockId subBlockId v).getValue blockId subBlockId = v := by
  simp [SubBlockStore.setValue, SubBlockStore.getValue, lookup_setAssoc_self]

/-- Marking an instance as cleared makes `isParamCleared` true. -/
theorem mark_isCleared (s : SubBlockStore) (i p : String) :
    (s.markParamAsCleared i p).isParamCleared i p = true := by
  unfold SubBlockStore.markParamAsCleared
  by_cases h : s.isParamCleared i p = true
  · simp only [h, if_true]
  · simp only [Bool.not_eq_true] at h
    simp only [h, Bool.false_eq_true, if_false]
    simp [SubBlockStore.isParamCleared]

/-- Marking leaves the stored tool params untouched. -/
theorem mark_toolParams (s : SubBlockStore) (i p : String) :
    (s.markParamAsCleared i p).toolParams = s.toolParams := by
  unfold SubBlockStore.markParamAsCleared
  split <;> rfl

/-- Marking leaves the field values untouched. -/
theorem mark_values (s : SubBlockStore) (i p : String) :
    (s.markParamAsCleared i p).values = s.values := by
  unfold SubBlockStore.markParamAsCleared
  split <;> rfl

/-- A list from which a key was filtered out no longer contains it. -/
theorem contains_filter_ne (l : List (String × String)) (x : String × String) :
    (l.filter (fun q => q != x)).contains x = false := by
  induction l with
  | nil => rfl
  | cons hd tl ih =>
      by_cases h : hd = x
      · simp [List.filter, h, ih]
      · have : (hd != x) = true := by simp [h]
        simp [List.filter, this, ih]
        exact fun he => h he.symm

/-- Unmarking an instance makes `isParamCleared` false. -/
theorem unmark_isCleared (s : SubBlockStore) (i p : String) :
    (s.unmarkParamAsCleared i p).isParamCleared i p = false := by
  simp [SubBlockStore.unmarkParamAsCleared, SubBlockStore.isParamCleared,
    contains_filter_ne]

/-- A truthy value is not structurally `null`. -/
theorem beq_vnull_false_of_truthy (v : Value) (h : v.truthy = true) :
    Value.beq v Value.vnull = false := by
  cases v <;> simp_all [Value.truthy, Value.beq]

/-- A truthy value is not structurally the empty string. -/
theorem beq_empty_false_of_truthy (v : Value) (h : v.truthy = true) :
    Value.beq v (Value.vstr "") = false := by
  cases v <;> simp_all [Value.truthy, Value.beq]

/-- A non-empty string is never structurally equal to a falsy value. -/
theorem beq_vstr_falsy (k : String) (v : Value) (hk : k ≠ "") (h : v.truthy = false) :
    Value.beq (Value.vstr k) v = false := by
  cases v <;> simp_all [Value.truthy, Value.beq]

/-- A truthy value whose stringification does not trim to empty is not a
blank input. -/
theorem isBlankInput_false (v : Value) (h1 : v.truthy = true)
    (h2 : jsTrim v.toJSString ≠ "") : v.isBlankInput = false := by
  simp [Value.isBlankInput, beq_vnull_false_of_truthy v h1,
    beq_empty_false_of_truthy v h1, h2]

/-- The empty string is not an environment-variable reference. -/
theorem isEnvVarRef_empty : isEnvVarRef (Value.vstr "") = false := by decide

/-- After conditionally unmarking, the instance is not cleared. -/
theorem isCleared_after_net (s : SubBlockStore) (i p : String) :
    ((if s.isParamCleared i p then s.unmarkParamAsCleared i p else s).isParamCleared i p)
      = false := by
  by_cases h : s.isParamCleared i p
  · simp [h, unmark_isCleared]
  · simp only [Bool.not_eq_true] at h
    simp [h]

/-- Conditional unmarking leaves the tool params untouched. -/
theorem toolParams_after_net (s : SubBlockStore) (i p : String) :
    (if s.isParamCleared i p then s.unmarkParamAsCleared i p else s).toolParams
      = s.toolParams := by
  split <;> rfl

/-- `setToolParam` leaves the cleared flags untouched. -/
theorem setToolParam_cleared (s : SubBlockStore) (scope p v : String) :
    (s.setToolParam scope p v).clearedParams = s.clearedParams := rfl

/-- C3: for an API-key field with a known block type, setting an empty or
blank value (null, empty string, or whitespace-only) while the previous
store value was non-empty marks `(blockId, "apiKey")` as user-cleared and
writes nothing to credential storage (and nothing to the field values
either). -/
theorem c3_blank_set_marks_cleared (gpm : ProviderResolver) (blockId bt : String)
    (modelValue newValue storeValue : Value) (s : SubBlockStore)
    (hbt : bt ≠ "")
    (hsv : storeValue.truthy = true)
    (hnv : newValue = Value.vnull ∨ newValue = Value.vstr ""
      ∨ jsTrim newValue.toJSString = "") :
    (storeApiKeyValue gpm blockId (some bt) modelValue newValue storeValue s).isParamCleared
        blockId "apiKey" = true
  ∧ (storeApiKeyValue gpm blockId (some bt) modelValue newValue storeValue s).toolParams
      = s.toolParams
  ∧ (storeApiKeyValue gpm blockId (some bt) modelValue newValue storeValue s).values
      = s.values := by
  have hbt2 : blockTypeTruthy (some bt) = true := by simp [blockTypeTruthy, hbt]
  have hblank : newValue.isBlankInput = true := by
    rcases hnv with h | h | h
    · simp [h, Value.isBlankInput, Value.beq]
    · simp [h, Value.isBlankInput, Value.beq]
    · simp [Value.isBlankInput, h]
  have hcond : (storeValue.truthy && !(Value.beq storeValue (Value.vstr ""))
      && newValue.isBlankInput) = true := by
    simp [hsv, beq_empty_false_of_truthy storeValue hsv, hblank]
  unfold storeApiKeyValue
  simp only [hbt2, Bool.not_true, Bool.false_eq_true, if_false, Option.getD, hcond, if_true]
  exact ⟨mark_isCleared s blockId "apiKey", mark_toolParams s blockId "apiKey",
    mark_values s blockId "apiKey"⟩

/-- Witness for C3 at a concrete input: a whitespace-only new value after
a non-empty previous value on a `slack` block. -/
theorem c3_blank_set_marks_cleared_witness :
    (storeApiKeyValue gpmDemo "b3" (some "slack") Value.vnull (Value.vstr "   ")
        (Value.vstr "old") emptyStore).isParamCleared "b3" "apiKey" = true
  ∧ (storeApiKeyValue gpmDemo "b3" (some "slack") Value.vnull (Value.vstr "   ")
      (Value.vstr "old") emptyStore).toolParams = emptyStore.toolParams
  ∧ (storeApiKeyValue gpmDemo "b3" (some "slack") Value.vnull (Value.vstr "   ")
      (Value.vstr "old") emptyStore).values = emptyStore.values :=
  c3_blank_set_marks_cleared gpmDemo "b3" "slack" Value.vnull (Value.vstr "   ")
    (Value.vstr "old") emptyStore (by decide) (by decide) (Or.inr (Or.inr (by decide)))

/-- C7: re-running the store-to-cache synchronisation with a store value
deep-equal to the cached value leaves the hook state (in particular the
cached reference) unchanged. -/
theorem c7_sync_keeps_cache (storeValue initialValue : Value) (hs : HookState)
    (h : Value.beq hs.valueRef storeValue = true) :
    syncRefEffect storeValue initialValue hs = hs := by
  simp [syncRefEffect, h]

/-- Witness for C7 at a concrete object-valued field. -/
theorem c7_sync_keeps_cache_witness :
    syncRefEffect (Value.vobj [("x", Value.vstr "1")]) Value.vnull
        ⟨Value.vobj [("x", Value.vstr "1")], Value.vnull⟩
      = ⟨Value.vobj [("x", Value.vstr "1")], Value.vnull⟩ :=
  c7_sync_keeps_cache (Value.vobj [("x", Value.vstr "1")]) Value.vnull
    ⟨Value.vobj [("x", Value.vstr "1")], Value.vnull⟩ rfl

/-- C9: calling the hook's setter with a value deep-equal to the cached
current value changes nothing at all: hook state, SubBlock store
(values, credential storage and cleared flags) and Workflow store are
returned unchanged, and no workflow update is counted even when
`triggerWorkflowUpdate` is true. -/
theorem c9_deep_equal_set_is_noop (gpm : ProviderResolver) (ctx : HookCtx)
    (hs : HookState) (s : SubBlockStore) (ws : WorkflowStore) (newValue : Value)
    (h : Value.beq hs.valueRef newValue = true) :
    setValueImpl gpm ctx hs s ws newValue = (hs, s, ws) := by
  simp [setValueImpl, h]

/-- Witness for C9: an object value deep-equal to the cache, with
`triggerWorkflowUpdate` set, on an API-key field. -/
theorem c9_deep_equal_set_is_noop_witness :
    setValueImpl gpmDemo ⟨"b", "apiKey", true⟩
        ⟨Value.vobj [("a", Value.vnum 2)], Value.vnull⟩ emptyStore wsEmpty
        (Value.vobj [("a", Value.vnum 2)])
      = (⟨Value.vobj [("a", Value.vnum 2)], Value.vnull⟩, emptyStore, wsEmpty) :=
  c9_deep_equal_set_is_noop gpmDemo ⟨"b", "apiKey", true⟩
    ⟨Value.vobj [("a", Value.vnum 2)], Value.vnull⟩ emptyStore wsEmpty
    (Value.vobj [("a", Value.vnum 2)]) (by decide)

set_option linter.unusedVariables false in
/-- C10: a whitespace-only (but non-empty) search query is treated as
empty: the Toolbar shows the category-filtered list for the active tab
instead of running a substring search. -/
theorem c10_whitespace_query_is_empty (allBlocks : List BlockConfig)
    (activeTab searchQuery : String)
    (hne : searchQuery ≠ "")
    (hws : jsTrim searchQuery = "") :
    toolbarBlocks allBlocks activeTab searchQuery
      = getBlocksByCategory allBlocks activeTab := by
  simp [toolbarBlocks, hws]

/-- Witness for C10 at the concrete query of three spaces. -/
theorem c10_whitespace_query_is_empty_witness :
    toolbarBlocks demoBlocks "basic" "   "
      = getBlocksByCategory demoBlocks "basic" :=
  c10_whitespace_query_is_empty demoBlocks "basic" "   " (by decide) (by decide)

set_option linter.unusedVariables false in
/-- C5: for a non-API-key field, setting a value and reading the field
back yields a value deep-equal to the one set; when the write actually
happens (the new value is not already deep-equal to the cache), the
SubBlock store receives the deep clone of the value, and on values
without `undefined` members the clone is (deep-)equal to the original. -/
theorem c5_set_get_roundtrip (gpm : ProviderResolver) (ctx : HookCtx) (hs : HookState)
    (s : SubBlockStore) (ws : WorkflowStore) (newValue : Value)
    (hnapi : isApiKeyField ctx.subBlockId = false) :
    Value.beq (setValueImpl gpm ctx hs s ws newValue).1.valueRef newValue = true
  ∧ (Value.beq hs.valueRef newValue = false →
      (setValueImpl gpm ctx hs s ws newValue).2.1.getValue ctx.blockId ctx.subBlockId
        = valueCopyOf newValue)
  ∧ (undefFree newValue = true → valueCopyOf newValue = newValue) := by
  refine ⟨?_, ?_, ?_⟩
  · by_cases hg : Value.beq hs.valueRef newValue = true
    · simp [setValueImpl, hg]
    · simp only [Bool.not_eq_true] at hg
      simp [setValueImpl, hg, Value.beq_refl]
  · intro hg
    simp [setValueImpl, hg, getValue_setValue]
  · intro hu
    cases newValue with
    | vnull => rfl
    | vundef => rfl
    | vbool b => rfl
    | vnum n => rfl
    | vstr s2 => rfl
    | vobj fs => simpa [valueCopyOf] using deepClone_eq_self (Value.vobj fs) hu
    | varr xs => simpa [valueCopyOf] using deepClone_eq_self (Value.varr xs) hu

/-- Witness for C5 at a concrete object value on the non-API-key field
`query`. -/
theorem c5_set_get_roundtrip_witness :
    Value.beq (setValueImpl gpmDemo ⟨"b", "query", false⟩ ⟨Value.vnull, Value.vnull⟩
        emptyStore wsEmpty (Value.vobj [("a", Value.vnum 1)])).1.valueRef
        (Value.vobj [("a", Value.vnum 1)]) = true
  ∧ (setValueImpl gpmDemo ⟨"b", "query", false⟩ ⟨Value.vnull, Value.vnull⟩
        emptyStore wsEmpty (Value.vobj [("a", Value.vnum 1)])).2.1.getValue "b" "query"
      = valueCopyOf (Value.vobj [("a", Value.vnum 1)])
  ∧ valueCopyOf (Value.vobj [("a", Value.vnum 1)]) = Value.vobj [("a", Value.vnum 1)] := by
  have h := c5_set_get_roundtrip gpmDemo ⟨"b", "query", false⟩ ⟨Value.vnull, Value.vnull⟩
    emptyStore wsEmpty (Value.vobj [("a", Value.vnum 1)]) (by decide)
  exact ⟨h.1, h.2.1 (by decide), h.2.2 (by decide)⟩

/-- C8: no read or write path raises an error; lookups degrade through
optional-chaining defaults.  A missing block yields `none` as the block
type and `null` as the initial value; a missing sub-block yields `null`;
the API-key storage routine is a no-op without a block type; and a
missing SubBlock-store entry reads as `null`.  (All embedded operations
are total functions, so no path can throw.) -/
theorem c8_absent_data_degrades :
    (∀ (ws : WorkflowStore) (blockId subBlockId : String),
        List.lookup blockId ws.blocks = none →
        ws.blockTypeOf blockId = none ∧ ws.initialValueOf blockId subBlockId = Value.vnull)
  ∧ (∀ (ws : WorkflowStore) (blockId subBlockId : String) (blk : Block),
        List.lookup blockId ws.blocks = some blk →
        List.lookup subBlockId blk.subBlocks = none →
        ws.initialValueOf blockId subBlockId = Value.vnull)
  ∧ (∀ (gpm : ProviderResolver) (blockId : String) (modelValue newValue storeValue : Value)
        (s : SubBlockStore),
        storeApiKeyValue gpm blockId none modelValue newValue storeValue s = s)
  ∧ (∀ (s : SubBlockStore) (blockId subBlockId : String),
        List.lookup (blockId, subBlockId) s.values = none →
        s.getValue blockId subBlockId = Value.vnull) := by
  refine ⟨?_, ?_, ?_, ?_⟩
  · intro ws blockId subBlockId h
    exact ⟨by simp [WorkflowStore.blockTypeOf, h],
      by simp [WorkflowStore.initialValueOf, h]⟩
  · intro ws blockId subBlockId blk h1 h2
    simp [WorkflowStore.initialValueOf, h1, h2]
  · intro gpm blockId modelValue newValue storeValue s
    rfl
  · intro s blockId subBlockId h
    simp [SubBlockStore.getValue, h]

/-- Witness for C8 at concrete absent ids on empty stores. -/
theorem c8_absent_data_degrades_witness :
    wsEmpty.blockTypeOf "nope" = none
  ∧ wsEmpty.initialValueOf "nope" "field" = Value.vnull
  ∧ storeApiKeyValue gpmDemo "nope" none Value.vnull (Value.vstr "k") Value.vnull
      emptyStore = emptyStore
  ∧ emptyStore.getValue "nope" "field" = Value.vnull := by
  obtain ⟨h1, _, h3, h4⟩ := c8_absent_data_degrades
  refine ⟨(h1 wsEmpty "nope" "field" rfl).1, (h1 wsEmpty "nope" "field" rfl).2,
    h3 gpmDemo "nope" Value.vnull (Value.vstr "k") Value.vnull emptyStore,
    h4 emptyStore "nope" "field" rfl⟩

/-- C6: with a non-blank query, the Toolbar list is exactly the blocks
whose title or description contains the (lowercased) query as a
substring, over all categories; it does not depend on the active tab;
and with a blank query it is exactly the active category's blocks. -/
theorem c6_toolbar_search (allBlocks : List BlockConfig) (activeTab searchQuery : String) :
    (jsTrim searchQuery ≠ "" →
       ∀ b, b ∈ toolbarBlocks allBlocks activeTab searchQuery ↔
         b ∈ allBlocks ∧
           (strIncludes (strToLower b.toolbar.title) (strToLower searchQuery) = true
             ∨ strIncludes (strToLower b.toolbar.description) (strToLower searchQuery) = true))
  ∧ (jsTrim searchQuery ≠ "" →
       ∀ tab2, toolbarBlocks allBlocks activeTab searchQuery
         = toolbarBlocks allBlocks tab2 searchQuery)
  ∧ (jsTrim searchQuery = "" →
       ∀ b, b ∈ toolbarBlocks allBlocks activeTab searchQuery ↔
         b ∈ allBlocks ∧ b.category = activeTab) := by
  refine ⟨?_, ?_, ?_⟩
  · intro h b
    have hb : (jsTrim searchQuery == "") = false := by simp [h]
    simp [toolbarBlocks, hb, List.mem_filter, Bool.or_eq_true]
  · intro h tab2
    have hb : (jsTrim searchQuery == "") = false := by simp [h]
    simp [toolbarBlocks, hb]
  · intro h b
    simp [toolbarBlocks, h, getBlocksByCategory, List.mem_filter]

/-- Witness for C6: the query `snow` finds the Snowflake Query block even
though the active tab is `basic` and the block's category is `tools`;
the blank query reverts to the category list. -/
theorem c6_toolbar_search_witness :
    jsTrim "snow" ≠ ""
  ∧ snowBlock ∈ toolbarBlocks demoBlocks "basic" "snow"
  ∧ snowBlock.category ≠ "basic"
  ∧ (snowBlock ∈ toolbarBlocks demoBlocks "basic" "" ↔
      snowBlock ∈ demoBlocks ∧ snowBlock.category = "basic") := by
  have h := c6_toolbar_search demoBlocks "basic" "snow"
  have h0 := c6_toolbar_search demoBlocks "basic" ""
  refine ⟨by decide, ?_, by decide, h0.2.2 (by decide) snowBlock⟩
  exact (h.1 (by decide) snowBlock).mpr ⟨by decide, Or.inl (by decide)⟩

/-- `setToolParam` does not affect the cleared flags, so `isParamCleared`
is unchanged by it. -/
theorem isCleared_setToolParam (s : SubBlockStore) (scope p v i q : String) :
    (s.setToolParam scope p v).isParamCleared i q = s.isParamCleared i q := rfl

/-- C4 as stated is false: on an `agent` block whose selected model
resolves to the `ollama` provider, a non-blank API-key value is stored
neither under the provider nor under the block type — credential storage
is left empty, not keyed by block type. -/
theorem c4_counterexample :
    gpmDemo "llama3" = some "ollama"
  ∧ (storeApiKeyValue gpmDemo "b4" (some "agent") (Value.vstr "llama3")
      (Value.vstr "fresh-key") Value.vnull emptyStore).toolParams = []
  ∧ List.lookup ("agent", "apiKey")
      (storeApiKeyValue gpmDemo "b4" (some "agent") (Value.vstr "llama3")
        (Value.vstr "fresh-key") Value.vnull emptyStore).toolParams = none := by
  exact ⟨rfl, rfl, rfl⟩

/-- C4 amended: a non-blank value always unmarks the cleared flag; it is
stored under the provider when the block type is provider-routed, the
model value is truthy and the provider resolves to a non-empty name
other than `ollama`; it is stored under the block type when the block
type is not provider-routed or the model value is falsy; and it is not
stored at all when the block type is provider-routed with a truthy model
whose provider is unresolvable, empty, or `ollama`. -/
theorem c4_store_scope_amended (gpm : ProviderResolver) (blockId bt : String)
    (modelValue newValue storeValue : Value) (s : SubBlockStore)
    (hbt : bt ≠ "")
    (hnvt : newValue.truthy = true)
    (hnvb : jsTrim newValue.toJSString ≠ "") :
    (storeApiKeyValue gpm blockId (some bt) modelValue newValue storeValue s).isParamCleared
        blockId "apiKey" = false
  ∧ ((bt = "agent" ∨ bt = "router" ∨ bt = "evaluator") → modelValue.truthy = true →
       (∀ p, gpm modelValue.toJSString = some p → p ≠ "" → p ≠ "ollama" →
          (storeApiKeyValue gpm blockId (some bt) modelValue newValue storeValue s).toolParams
            = setAssoc (p, "apiKey") newValue.toJSString s.toolParams)
       ∧ ((gpm modelValue.toJSString = none ∨ gpm modelValue.toJSString = some ""
            ∨ gpm modelValue.toJSString = some "ollama") →
          (storeApiKeyValue gpm blockId (some bt) modelValue newValue storeValue s).toolParams
            = s.toolParams))
  ∧ ((¬(bt = "agent" ∨ bt = "router" ∨ bt = "evaluator") ∨ modelValue.truthy = false) →
       (storeApiKeyValue gpm blockId (some bt) modelValue newValue storeValue s).toolParams
         = setAssoc (bt, "apiKey") newValue.toJSString s.toolParams) := by
  have hbt2 : blockTypeTruthy (some bt) = true := by simp [blockTypeTruthy, hbt]
  have hblank : newValue.isBlankInput = false := isBlankInput_false newValue hnvt hnvb
  have hcond1 : (storeValue.truthy && !(Value.beq storeValue (Value.vstr ""))
      && newValue.isBlankInput) = false := by simp [hblank]
  have hcond2 : (!newValue.truthy || (jsTrim newValue.toJSString == "")) = false := by
    simp [hnvt, hnvb]
  refine ⟨?_, ?_, ?_⟩
  · unfold storeApiKeyValue
    simp only [hbt2, Bool.not_true, Bool.false_eq_true, if_false, Option.getD_some,
      hcond1, hcond2]
    by_cases hb : ((bt == "agent" || bt == "router" || bt == "evaluator")
        && modelValue.truthy) = true
    · simp only [hb, if_true]
      cases hgp : gpm modelValue.toJSString with
      | none => exact isCleared_after_net s blockId "apiKey"
      | some p =>
          by_cases hp : (p != "" && p != "ollama") = true
          · simp only [hp, if_true]
            exact isCleared_after_net s blockId "apiKey"
          · simp only [Bool.not_eq_true] at hp
            simp only [hp, Bool.false_eq_true, if_false]
            exact isCleared_after_net s blockId "apiKey"
    · simp only [Bool.not_eq_true] at hb
      simp only [hb, Bool.false_eq_true, if_false]
      exact isCleared_after_net s blockId "apiKey"
  · intro hprov hmt
    have hb : ((bt == "agent" || bt == "router" || bt == "evaluator")
        && modelValue.truthy) = true := by
      rcases hprov with h | h | h <;> simp [h, hmt]
    constructor
    · intro p hgp hp1 hp2
      have hp : (p != "" && p != "ollama") = true := by simp [hp1, hp2]
      unfold storeApiKeyValue
      simp only [hbt2, Bool.not_true, Bool.false_eq_true, if_false, Option.getD_some,
        hcond1, hcond2, hb, if_true, hgp, hp, SubBlockStore.setToolParam,
        toolParams_after_net]
    · intro hdisj
      unfold storeApiKeyValue
      rcases hdisj with h | h | h
      all_goals simp only [hbt2, Bool.not_true, Bool.false_eq_true, if_false,
        Option.getD_some, hcond1, hcond2, hb, if_true, h, toolParams_after_net]
      · simp [toolParams_after_net]
      · simp [toolParams_after_net]
  · intro hdisj
    have hb : ((bt == "agent" || bt == "router" || bt == "evaluator")
        && modelValue.truthy) = false := by
      rcases hdisj with h | h
      · push_neg at h
        obtain ⟨h1, h2, h3⟩ := h
        simp [h1, h2, h3]
      · simp [h]
    unfold storeApiKeyValue
    simp only [hbt2, Bool.not_true, Bool.false_eq_true, if_false, Option.getD_some,
      hcond1, hcond2, hb, SubBlockStore.setToolParam, toolParams_after_net]

/-- Witness for C4 amended: a non-blank key on a `slack` block is stored
under the block type, and the cleared flag ends unset. -/
theorem c4_store_scope_amended_witness :
    (storeApiKeyValue gpmDemo "b4" (some "slack") Value.vnull (Value.vstr "k1")
        Value.vnull emptyStore).isParamCleared "b4" "apiKey" = false
  ∧ (storeApiKeyValue gpmDemo "b4" (some "slack") Value.vnull (Value.vstr "k1")
      Value.vnull emptyStore).toolParams
      = setAssoc ("slack", "apiKey") (Value.vstr "k1").toJSString emptyStore.toolParams := by
  have h := c4_store_scope_amended gpmDemo "b4" "slack" Value.vnull (Value.vstr "k1")
    Value.vnull emptyStore (by decide) (by decide) (by decide)
  exact ⟨h.1, h.2.2 (Or.inl (by decide))⟩

/-- C1 as stated is false: on an `agent` block, when the observed model
changes to a non-null model from which no provider can be resolved, the
API-key field is left holding its previous non-empty value — it is not
set to the empty string as the claim requires for the
provider-unresolvable case. -/
theorem c1_counterexample :
    gpmDemo "mystery-model" = none
  ∧ storeC1.getValue "b1" "apiKey" = Value.vstr "oldkey"
  ∧ ((modelChangeEffect gpmDemo "b1" "apiKey" (some "agent") true
        ⟨Value.vstr "oldkey", Value.vnull⟩ storeC1).2).getValue "b1" "apiKey"
      = Value.vstr "oldkey"
  ∧ Value.vstr "oldkey" ≠ Value.vstr "" := by
  refine ⟨rfl, rfl, rfl, by simp⟩

/-- C1 amended: on a provider-routed block's API-key field, when the
observed model value changes to a truthy model: if the resolved provider
is non-empty and not `ollama`, the field is set to the stored key when
that key is non-empty and auto-fill is enabled, and to the empty string
otherwise (no stored key, empty stored key, or auto-fill disabled);
when the provider is unresolvable, empty, or `ollama`, the SubBlock
store is left unchanged.  In every case the previous-model ref is
updated to the new model. -/
theorem c1_model_change_amended (gpm : ProviderResolver)
    (blockId subBlockId bt : String) (autofill : Bool) (hs : HookState)
    (s : SubBlockStore)
    (hapi : isApiKeyField subBlockId = true)
    (hprov : isProviderBasedOf (some bt) = true)
    (hbid : blockId ≠ "")
    (m : String)
    (hm : s.getValue blockId "model" = Value.vstr m)
    (hm_ne : m ≠ "")
    (hchanged : Value.beq (Value.vstr m) hs.prevModelRef = false) :
    (modelChangeEffect gpm blockId subBlockId (some bt) autofill hs s).1.prevModelRef
        = Value.vstr m
  ∧ (∀ p, gpm m = some p → p ≠ "" → p ≠ "ollama" →
       (∀ k, s.resolveToolParamValue p "apiKey" blockId = some k → k ≠ "" →
          autofill = true →
          (modelChangeEffect gpm blockId subBlockId (some bt) autofill hs s).2
            = s.setValue blockId subBlockId (Value.vstr k))
       ∧ ((s.resolveToolParamValue p "apiKey" blockId = none
            ∨ s.resolveToolParamValue p "apiKey" blockId = some ""
            ∨ autofill = false) →
          (modelChangeEffect gpm blockId subBlockId (some bt) autofill hs s).2
            = s.setValue blockId subBlockId (Value.vstr "")))
  ∧ ((gpm m = none ∨ gpm m = some "" ∨ gpm m = some "ollama") →
       (modelChangeEffect gpm blockId subBlockId (some bt) autofill hs s).2 = s) := by
  have hb : (blockId != "") = true := by simp [hbid]
  have hmv : computeModelValue blockId (some bt) s = Value.vstr m := by
    simp [computeModelValue, hprov, hb, hm]
  have hguard : (!(isApiKeyField subBlockId) || !(isProviderBasedOf (some bt))) = false := by
    simp [hapi, hprov]
  have htr : (Value.vstr m).truthy = true := by simp [Value.truthy, hm_ne]
  refine ⟨?_, ?_, ?_⟩
  · unfold modelChangeEffect
    simp only [hmv, hguard, Bool.false_eq_true, if_false, hchanged, htr, if_true,
      Value.toJSString]
    cases hgp : gpm m with
    | none => rfl
    | some p =>
        by_cases hp : (p == "" || p == "ollama") = true
        · simp only [hp, if_true]
        · simp only [Bool.not_eq_true] at hp
          simp only [hp, Bool.false_eq_true, if_false]
          cases hres : s.resolveToolParamValue p "apiKey" blockId with
          | none => rfl
          | some k =>
              by_cases hk : (k != "" && autofill) = true
              · simp only [hk, if_true]
              · simp only [Bool.not_eq_true] at hk
                simp only [hk, Bool.false_eq_true, if_false]
  · intro p hgp hp1 hp2
    have hp : (p == "" || p == "ollama") = false := by simp [hp1, hp2]
    constructor
    · intro k hres hk hauto
      subst hauto
      have hkk : (k != "" && true) = true := by simp [hk]
      unfold modelChangeEffect
      simp only [hmv, hguard, Bool.false_eq_true, if_false, hchanged, htr, if_true,
        Value.toJSString, hgp, hp, hres, hkk]
    · intro hdisj
      unfold modelChangeEffect
      simp only [hmv, hguard, Bool.false_eq_true, if_false, hchanged, htr, if_true,
        Value.toJSString, hgp, hp]
      rcases hdisj with h | h | h
      · simp only [h]
      · simp only [h]
        simp
      · subst h
        cases hres : s.resolveToolParamValue p "apiKey" blockId with
        | none => rfl
        | some k => simp
  · intro hdisj
    unfold modelChangeEffect
    simp only [hmv, hguard, Bool.false_eq_true, if_false, hchanged, htr, if_true,
      Value.toJSString]
    rcases hdisj with h | h | h
    · simp only [h]
    · simp only [h]
      simp
    · simp only [h]
      simp

/-- Witness for C1 amended: switching to `gpt-4o` with a stored `openai`
key and auto-fill enabled fills the field with that key and records the
new model in the previous-model ref. -/
theorem c1_model_change_amended_witness :
    (modelChangeEffect gpmDemo "b1" "apiKey" (some "agent") true
        ⟨Value.vnull, Value.vnull⟩ storeW1).2
      = storeW1.setValue "b1" "apiKey" (Value.vstr "sk-test")
  ∧ (modelChangeEffect gpmDemo "b1" "apiKey" (some "agent") true
        ⟨Value.vnull, Value.vnull⟩ storeW1).1.prevModelRef = Value.vstr "gpt-4o" := by
  have h := c1_model_change_amended gpmDemo "b1" "apiKey" "agent" true
    ⟨Value.vnull, Value.vnull⟩ storeW1 (by decide) (by decide) (by decide) "gpt-4o" rfl
    (by decide) (by decide)
  exact ⟨(h.2.1 "openai" rfl (by decide) (by decide)).1 "sk-test" rfl (by decide) rfl, h.1⟩

/-- C2 as stated is false: on mount, for an `agent` block whose model
resolves to `openai` but with no stored key, the hook writes the empty
string over a non-empty API-key field — a write although no stored value
was found and the field was not empty. -/
theorem c2_counterexample :
    storeC2.getValue "b2" "apiKey" = Value.vstr "manual-key"
  ∧ gpmDemo "gpt-4o" = some "openai"
  ∧ storeC2.toolParams = []
  ∧ (mountAutofillEffect gpmDemo "b2" "apiKey" (some "agent") true
        storeC2).getValue "b2" "apiKey" = Value.vstr ""
  ∧ Value.vstr "" ≠ Value.vstr "manual-key" := by
  refine ⟨rfl, rfl, rfl, rfl, by simp⟩

/-- C2 amended: on mount with auto-fill enabled and an API-key field:
for provider-routed blocks, a truthy model whose provider resolves to a
non-empty name other than `ollama` causes an unconditional write — the
stored provider key when one is found non-empty, the empty string
otherwise — regardless of the current field value; a falsy model, an
unresolvable or empty provider, or `ollama` leaves the store unchanged.
A falsy model value — in particular the null default of an absent
`model` sub-block — likewise suppresses any write.
For other blocks with a truthy block type, a stored value is written
only when the current field value is falsy and the stored value is
non-empty, or when the current value is a `\x7b\x7b...\x7d\x7d`
reference and the resolved value is non-empty and differs from it; any
other truthy field value is left alone. -/
theorem c2_mount_autofill_amended (gpm : ProviderResolver)
    (blockId subBlockId bt : String) (s : SubBlockStore)
    (hapi : isApiKeyField subBlockId = true) :
    (isProviderBasedOf (some bt) = true → blockId ≠ "" →
      (((s.getValue blockId "model").truthy = false →
          mountAutofillEffect gpm blockId subBlockId (some bt) true s = s)
      ∧ (∀ m, s.getValue blockId "model" = Value.vstr m → m ≠ "" →
          ∀ p, gpm m = some p → p ≠ "" → p ≠ "ollama" →
            (∀ k, s.resolveToolParamValue p "apiKey" blockId = some k → k ≠ "" →
              mountAutofillEffect gpm blockId subBlockId (some bt) true s
                = s.setValue blockId subBlockId (Value.vstr k))
            ∧ ((s.resolveToolParamValue p "apiKey" blockId = none
                 ∨ s.resolveToolParamValue p "apiKey" blockId = some "") →
              mountAutofillEffect gpm blockId subBlockId (some bt) true s
                = s.setValue blockId subBlockId (Value.vstr "")))
      ∧ (∀ m, s.getValue blockId "model" = Value.vstr m → m ≠ "" →
          (gpm m = none ∨ gpm m = some "" ∨ gpm m = some "ollama") →
            mountAutofillEffect gpm blockId subBlockId (some bt) true s = s)))
  ∧ (isProviderBasedOf (some bt) = false → bt ≠ "" →
      ∀ sv, s.getValue blockId subBlockId = sv →
        ((sv.truthy = false →
           (∀ k, s.resolveToolParamValue bt "apiKey" blockId = some k → k ≠ "" →
              mountAutofillEffect gpm blockId subBlockId (some bt) true s
                = s.setValue blockId subBlockId (Value.vstr k))
           ∧ ((s.resolveToolParamValue bt "apiKey" blockId = none
                ∨ s.resolveToolParamValue bt "apiKey" blockId = some "") →
              mountAutofillEffect gpm blockId subBlockId (some bt) true s = s))
        ∧ (sv.truthy = true → isEnvVarRef sv = false →
            mountAutofillEffect gpm blockId subBlockId (some bt) true s = s)
        ∧ (∀ rs, sv = Value.vstr rs → isEnvVarRef sv = true →
            (∀ c, s.resolveToolParamValue bt "apiKey" blockId = some c → c ≠ "" → c ≠ rs →
               mountAutofillEffect gpm blockId subBlockId (some bt) true s
                 = s.setValue blockId subBlockId (Value.vstr c))
            ∧ ((s.resolveToolParamValue bt "apiKey" blockId = none
                 ∨ s.resolveToolParamValue bt "apiKey" blockId = some ""
                 ∨ s.resolveToolParamValue bt "apiKey" blockId = some rs) →
               mountAutofillEffect gpm blockId subBlockId (some bt) true s = s)))) := by
  constructor
  · intro hprov hbid
    have hb : (blockId != "") = true := by simp [hbid]
    have hmv0 : computeModelValue blockId (some bt) s = s.getValue blockId "model" := by
      simp [computeModelValue, hprov, hb]
    have hred0 : mountAutofillEffect gpm blockId subBlockId (some bt) true s
        = handleProviderBasedApiKey gpm blockId subBlockId (s.getValue blockId "model")
            (s.getValue blockId subBlockId) s := by
      unfold mountAutofillEffect
      simp only [Bool.not_true, Bool.false_eq_true, if_false, hapi, hprov, if_true, hmv0]
    refine ⟨?_, ?_, ?_⟩
    · intro hfalsy
      rw [hred0]
      unfold handleProviderBasedApiKey
      simp [hfalsy]
    · intro m hm hm_ne p hgp hp1 hp2
      rw [hm] at hred0
      have htr : (Value.vstr m).truthy = true := by simp [Value.truthy, hm_ne]
      have hp : (p == "" || p == "ollama") = false := by simp [hp1, hp2]
      constructor
      · intro k hres hk
        have hk2 : (k != "") = true := by simp [hk]
        rw [hred0]
        unfold handleProviderBasedApiKey
        simp only [htr, Bool.not_true, Bool.false_eq_true, if_false, Value.toJSString,
          hgp, hp, hres, hk2, if_true]
      · intro hdisj
        rw [hred0]
        unfold handleProviderBasedApiKey
        simp only [htr, Bool.not_true, Bool.false_eq_true, if_false, Value.toJSString,
          hgp, hp]
        rcases hdisj with h | h
        · simp only [h]
        · simp only [h]
          simp
    · intro m hm hm_ne hdisj
      rw [hm] at hred0
      have htr : (Value.vstr m).truthy = true := by simp [Value.truthy, hm_ne]
      rw [hred0]
      unfold handleProviderBasedApiKey
      simp only [htr, Bool.not_true, Bool.false_eq_true, if_false, Value.toJSString]
      rcases hdisj with h | h | h
      · simp only [h]
      · simp only [h]
        simp
      · simp only [h]
        simp
  · intro hsprov hbt sv hsv
    have hbt2 : blockTypeTruthy (some bt) = true := by simp [blockTypeTruthy, hbt]
    have hred : mountAutofillEffect gpm blockId subBlockId (some bt) true s
        = handleStandardBlockApiKey blockId subBlockId (some bt) sv s := by
      unfold mountAutofillEffect
      simp only [Bool.not_true, Bool.false_eq_true, if_false, hapi, if_true, hsprov, hsv]
    refine ⟨?_, ?_, ?_⟩
    · intro hfalsy
      constructor
      · intro k hres hk
        have hk2 : (k != "") = true := by simp [hk]
        have hne : Value.beq (Value.vstr k) sv = false := beq_vstr_falsy k sv hk hfalsy
        rw [hred]
        unfold handleStandardBlockApiKey
        simp only [hbt2, Bool.not_true, Bool.false_eq_true, if_false, Option.getD_some,
          hfalsy, Bool.not_false, if_true, hres, hk2, hne]
        simp
      · intro hdisj
        rw [hred]
        unfold handleStandardBlockApiKey
        simp only [hbt2, Bool.not_true, Bool.false_eq_true, if_false, Option.getD_some,
          hfalsy, Bool.not_false, if_true]
        rcases hdisj with h | h
        · simp only [h]
        · simp only [h]
          simp
    · intro htruthy hnoref
      rw [hred]
      unfold handleStandardBlockApiKey
      simp only [hbt2, Bool.not_true, Bool.false_eq_true, if_false, Option.getD_some,
        htruthy, hnoref]
    · intro rs hrs href
      subst hrs
      have hrs_ne : rs ≠ "" := by
        intro h0
        rw [h0] at href
        rw [isEnvVarRef_empty] at href
        exact Bool.false_ne_true href
      have htruthy : (Value.vstr rs).truthy = true := by simp [Value.truthy, hrs_ne]
      constructor
      · intro c hres hc hcrs
        have hc2 : (c != "") = true := by simp [hc]
        have hbe : Value.beq (Value.vstr c) (Value.vstr rs) = false := by
          simp [Value.beq, hcrs]
        rw [hred]
        unfold handleStandardBlockApiKey
        simp only [hbt2, Bool.not_true, Bool.false_eq_true, if_false, Option.getD_some,
          htruthy, href, if_true, hres, hbe, hc2]
        simp
      · intro hdisj
        rw [hred]
        unfold handleStandardBlockApiKey
        simp only [hbt2, Bool.not_true, Bool.false_eq_true, if_false, Option.getD_some,
          htruthy, href, if_true]
        rcases hdisj with h | h | h
        · simp only [h]
        · simp only [h]
          simp
        · simp only [h]
          simp [Value.beq_refl]

/-- Witness for C2 amended: on a `slack` block with an empty field and a
stored `slack` key, mount auto-fill writes the stored key; and on an
`agent` block whose `model` sub-block is absent (so the model value is
the null default, falsy), mount auto-fill leaves the store unchanged. -/
theorem c2_mount_autofill_amended_witness :
    mountAutofillEffect gpmDemo "b5" "apiKey" (some "slack") true storeW2
      = storeW2.setValue "b5" "apiKey" (Value.vstr "tok")
  ∧ mountAutofillEffect gpmDemo "b6" "apiKey" (some "agent") true storeW2 = storeW2 := by
  have h := c2_mount_autofill_amended gpmDemo "b5" "apiKey" "slack" storeW2 (by decide)
  have h2 := c2_mount_autofill_amended gpmDemo "b6" "apiKey" "agent" storeW2 (by decide)
  exact ⟨((h.2 (by decide) (by decide) Value.vnull rfl).1 (by decide)).1 "tok" rfl
    (by decide), (h2.1 (by decide) (by decide)).1 (by decide)⟩
